import Mathlib

/-!
A shallow embedding, in Lean 4, of parts of the zero-to-production newsletter
service: the SubscriberName domain value object (src/domain.rs), the
EmailClient transport adapter (src/email_client.rs), and the admin dashboard
and change-password-form handlers (src/routes/admin/dashboard.rs,
src/routes/admin/password/get.rs), together with theorems settling the
specification's claims about them.
-/

namespace ZeroToProd

/-- Outcome of a Rust computation that may abort the process: a normal return
value, or a process abort carrying the abort message. -/
inductive RustOutcome (α : Type) where
  | ok : α → RustOutcome α
  | panicked : String → RustOutcome α
  deriving DecidableEq, Repr

/-- src/domain.rs: the forbidden characters of SubscriberName::parse,
in the source the array `['/', '(', ')', '"', '<', '>', '\\', '{', '}']`
(the last two written here with their code points, 0x7b and 0x7d). -/
def forbidden_chars : List Char :=
  ['/', '(', ')', '\"', '<', '>', '\\', '\x7b', '\x7d']

/-- Rust's str::trim on a character list: leading and trailing whitespace
dropped, the middle kept. -/
def trim_chars (cs : List Char) : List Char :=
  ((cs.dropWhile Char.isWhitespace).reverse.dropWhile Char.isWhitespace).reverse

/-- Rust's str::trim: the string without its leading and trailing
whitespace. -/
def str_trim (s : String) : String := ⟨trim_chars s.data⟩

/-- src/domain.rs: `pub struct SubscriberName(String)`. -/
structure SubscriberName where
  val : String
  deriving DecidableEq, Repr

/-- src/domain.rs, SubscriberName::parse. `gc` stands for the external
unicode-segmentation crate's extended-grapheme-cluster count
(`s.graphemes(true).count()` in the source), kept as a parameter of the
embedding; `str_trim` stands for Rust's `str::trim`. The source panics
on invalid input, embedded as the `RustOutcome.panicked` branch with the
source's message. -/
def SubscriberName.parse (gc : String → Nat) (s : String) : RustOutcome SubscriberName :=
  let is_empty_or_white_space := (str_trim s).isEmpty
  let is_too_long := decide (gc s > 256)
  let has_forbidden_chars := s.data.any (fun g => forbidden_chars.contains g)
  if is_empty_or_white_space || is_too_long || has_forbidden_chars then
    RustOutcome.panicked (s ++ " is not a valid subscriber name")
  else
    RustOutcome.ok ⟨s⟩

/-- src/domain.rs, SubscriberName::inner_ref: a read-only view of the inner
string. -/
def SubscriberName.inner_ref (n : SubscriberName) : String := n.val

/-- Modelled from the spec: SubscriberEmail (the domain module's email wrapper;
src/domain.rs as staged holds only SubscriberName) is an immutable validated
wrapper around the address string, and `as_ref` exposes the inner string. Only
the wrapper shape matters to the e-mail client claims. -/
structure SubscriberEmail where
  address : String
  deriving DecidableEq, Repr

/-- The email wrapper's AsRef view, as `self.sender.as_ref()` uses it. -/
def SubscriberEmail.as_ref (e : SubscriberEmail) : String := e.address

/-- Derived Debug rendering of SubscriberEmail, a one-field tuple struct. -/
def SubscriberEmail.debug_fmt (e : SubscriberEmail) : String :=
  "SubscriberEmail(\"" ++ e.address ++ "\")"

/-- Model of the external secrecy crate's Secret of String: the wrapped value
is reachable only through `expose_secret`; the crate implements neither
Display nor any default string conversion for it. -/
structure Secret where
  inner_secret : String
  deriving DecidableEq, Repr

/-- secrecy's ExposeSecret::expose_secret, the one reveal accessor. -/
def Secret.expose_secret (s : Secret) : String := s.inner_secret

/-- Debug rendering of Secret of String in the secrecy crate: a fixed
placeholder, independent of the wrapped value. -/
def Secret.debug_fmt (_ : Secret) : String :=
  "Secret([REDACTED alloc::string::String])"

/-- src/email_client.rs: the EmailClient struct (the reqwest Client field
holds no state the embedded behaviour depends on). -/
structure EmailClient where
  base_url : String
  sender : SubscriberEmail
  authorization_token : Secret
  deriving DecidableEq, Repr

/-- src/email_client.rs, EmailClient::new. -/
def EmailClient.new (base_url : String) (sender : SubscriberEmail)
    (authorization_token : Secret) : EmailClient :=
  { base_url, sender, authorization_token }

/-- Derived Debug rendering of EmailClient: every field in declaration order,
the token through Secret's redacting Debug. -/
def EmailClient.debug_fmt (c : EmailClient) : String :=
  "EmailClient \x7b http_client: Client, base_url: \"" ++ c.base_url ++
    "\", sender: " ++ c.sender.debug_fmt ++
    ", authorization_token: " ++ c.authorization_token.debug_fmt ++ " \x7d"

/-- A parsed absolute URL, reduced to the parts send_email exercises: scheme,
authority (host and optional port), and everything after the authority as the
path. -/
structure Url where
  scheme : String
  authority : String
  path : String
  deriving DecidableEq, Repr

/-- Splits a character list at the first literal `://`, returning the scheme
characters and the remainder. -/
def splitScheme : List Char → List Char → Option (List Char × List Char)
  | [], _ => none
  | ':' :: '/' :: '/' :: rest, acc => some (acc.reverse, rest)
  | c :: rest, acc => splitScheme rest (c :: acc)

/-- Model of reqwest's Url::parse, restricted to hierarchical URLs of the
shape scheme://authority/path: a nonempty alphabetic scheme and a nonempty
authority are required; anything else (no `://`, empty host, relative
reference) fails to parse, as the real parser rejects such base URLs. -/
def Url.parse (s : String) : Option Url :=
  match splitScheme s.data [] with
  | none => none
  | some (sch, rest) =>
    let auth := rest.takeWhile (fun c => c ≠ '/')
    if sch ≠ [] && sch.all (fun c => c.isAlpha) && auth ≠ [] then
      some { scheme := ⟨sch⟩, authority := ⟨auth⟩,
             path := ⟨rest.dropWhile (fun c => c ≠ '/')⟩ }
    else
      none

/-- Model of reqwest's Url::join for the one reference form the code uses: an
input beginning with `/` is an absolute-path reference and replaces the base
URL's entire path (RFC 3986 section 5.3). Other reference forms are outside
the embedded code's use and are left unresolved. -/
def Url.join (base : Url) (input : String) : Option Url :=
  match input.data with
  | '/' :: _ => some { base with path := input }
  | _ => none

/-- The serialized text of a Url, as the request carries it. -/
def Url.render (u : Url) : String := u.scheme ++ "://" ++ u.authority ++ u.path

/-- serde's PascalCase rename rule for one snake_case word: first letter
upper-cased. -/
def capitalize_word (w : String) : String :=
  match w.data with
  | [] => ""
  | c :: cs => ⟨c.toUpper :: cs⟩

/-- Splits a character list at underscores, serde's word boundary for
snake_case field names. -/
def split_on_underscore : List Char → List (List Char)
  | [] => [[]]
  | '_' :: rest => [] :: split_on_underscore rest
  | c :: rest =>
    match split_on_underscore rest with
    | [] => [[c]]
    | w :: ws => (c :: w) :: ws

/-- serde's rename_all = "PascalCase" on a snake_case field name: the
underscore-separated words, each capitalized, concatenated. -/
def pascal_case (s : String) : String :=
  String.join ((split_on_underscore s.data).map (fun w => capitalize_word ⟨w⟩))

/-- src/email_client.rs: the SendEmailRequest body struct under
serde(rename_all = "PascalCase"), serialized as an ordered JSON object:
field names renamed with pascal_case, values in declaration order. -/
def SendEmailRequest.serialize (from_field to_field subject html_body text_body : String) :
    List (String × String) :=
  [(pascal_case "from", from_field),
   (pascal_case "to", to_field),
   (pascal_case "subject", subject),
   (pascal_case "html_body", html_body),
   (pascal_case "text_body", text_body)]

/-- One outbound HTTP request as send_email builds it: method, URL, headers,
and the JSON body as an ordered list of field-name/value pairs. -/
structure HttpRequest where
  method : String
  url : Url
  headers : List (String × String)
  body : List (String × String)
  deriving DecidableEq, Repr

/-- What the network does with one request: a response carrying a status code,
or a network-level failure (connection error, timeout, ...). -/
inductive HttpExchange where
  | response : Nat → HttpExchange
  | network_error : HttpExchange
  deriving DecidableEq, Repr

/-- Model of the reqwest::Error values send_email can return: the error
`Response::error_for_status` makes from a 4xx/5xx status, or a network-level
error from `send()`. -/
inductive ReqwestError where
  | status_error : Nat → ReqwestError
  | network_error : ReqwestError
  deriving DecidableEq, Repr

/-- http's StatusCode::is_client_error: 400..=499. -/
def is_client_error (s : Nat) : Bool := 400 ≤ s && s ≤ 499

/-- http's StatusCode::is_server_error: 500..=599. -/
def is_server_error (s : Nat) : Bool := 500 ≤ s && s ≤ 599

/-- The observable effects of one send_email call: the requests actually
handed to the HTTP client, and the call's outcome — a normal Result, or a
process abort from one of the two unwraps on URL handling. -/
structure SendEmailRun where
  issued : List HttpRequest
  outcome : RustOutcome (Except ReqwestError Unit)
  deriving Repr

/-- The Result of `.send().await?.error_for_status()?` for one exchange:
a network-level failure propagates as an error; `error_for_status` turns a
4xx or 5xx status into `ReqwestError.status_error` and passes every other
status through as success. -/
def exchange_result : HttpExchange → Except ReqwestError Unit
  | HttpExchange.network_error => Except.error ReqwestError.network_error
  | HttpExchange.response status =>
    if is_client_error status || is_server_error status then
      Except.error (ReqwestError.status_error status)
    else
      Except.ok ()

/-- The one request send_email builds against the joined URL `b`/email:
a POST carrying the X-Postmark-Server-Token header with the exposed token
and the serialized SendEmailRequest body. -/
def send_request (c : EmailClient) (recipient : SubscriberEmail)
    (subject html_content text_content : String) (url : Url) : HttpRequest :=
  { method := "POST", url := url,
    headers := [("X-Postmark-Server-Token", c.authorization_token.expose_secret)],
    body := SendEmailRequest.serialize
      c.sender.as_ref recipient.as_ref subject html_content text_content }

/-- src/email_client.rs, EmailClient::send_email. The network is a parameter
`transport` giving each request's exchange result. The two `.unwrap()` calls
on Url::parse and Url::join become `RustOutcome.panicked` branches reached
before any request is issued; the one request handed to the HTTP client and
its mapped Result are recorded in the run. -/
def EmailClient.send_email (c : EmailClient) (recipient : SubscriberEmail)
    (subject html_content text_content : String)
    (transport : HttpRequest → HttpExchange) : SendEmailRun :=
  match Url.parse c.base_url with
  | none =>
    { issued := [],
      outcome := RustOutcome.panicked "called `Result::unwrap()` on an `Err` value" }
  | some base_url =>
    match Url.join base_url "/email" with
    | none =>
      { issued := [],
        outcome := RustOutcome.panicked "called `Result::unwrap()` on an `Err` value" }
    | some url =>
      let req := send_request c recipient subject html_content text_content url
      { issued := [req], outcome := RustOutcome.ok (exchange_result (transport req)) }

/-- The spec's three EmailTransport outcomes. -/
inductive TransportOutcome where
  | Success : TransportOutcome
  | TransientFailure : TransportOutcome
  | PermanentFailure : TransportOutcome
  deriving DecidableEq, Repr

/-- Modelled from the spec: the worker-side classification of a send result
(the issue-delivery worker is declared in src/lib.rs but its file is not
among the staged sources). Spec section 4.5: network-level errors and 5xx
responses are transient, 4xx responses are permanent, any other error is
transient; a successful send is Success. -/
def classify_send : Except ReqwestError Unit → TransportOutcome
  | Except.ok _ => TransportOutcome.Success
  | Except.error ReqwestError.network_error => TransportOutcome.TransientFailure
  | Except.error (ReqwestError.status_error st) =>
    if is_server_error st then TransportOutcome.TransientFailure
    else if is_client_error st then TransportOutcome.PermanentFailure
    else TransportOutcome.TransientFailure

/-- The amended classification contract for C4, stated from the spec side:
network errors and 5xx are transient, 4xx permanent, and a response with any
status outside 400..599 — 2xx, but also 1xx and 3xx — ends as Success. -/
def expected_classification : HttpExchange → TransportOutcome
  | HttpExchange.network_error => TransportOutcome.TransientFailure
  | HttpExchange.response st =>
    if 500 ≤ st ∧ st ≤ 599 then TransportOutcome.TransientFailure
    else if 400 ≤ st ∧ st ≤ 499 then TransportOutcome.PermanentFailure
    else TransportOutcome.Success

/-- A concrete client used by the concrete-input theorems. -/
def exClient : EmailClient :=
  EmailClient.new "http://base-url.com"
    (SubscriberEmail.mk "sender@example.com") (Secret.mk "token-123")

/-- A concrete client whose base URL is not a valid absolute URL. -/
def exBadClient : EmailClient :=
  EmailClient.new "not a url"
    (SubscriberEmail.mk "sender@example.com") (Secret.mk "token-123")

/-- An HTTP response as actix-web builds it, reduced to status, headers and
body. -/
structure HttpResponse where
  status : Nat
  headers : List (String × String)
  body : String
  deriving DecidableEq, Repr

/-- Modelled from the spec: utils::see_other (the utils module is declared in
src/lib.rs but its file is not among the staged sources) builds a See Other
redirect — status 303 with a Location header and an empty body. -/
def see_other (location : String) : HttpResponse :=
  { status := 303, headers := [("Location", location)], body := "" }

/-- Modelled from the spec: utils::e500 wraps an error into an opaque 500
Internal Server Error response. -/
def e500 (_msg : String) : HttpResponse :=
  { status := 500, headers := [], body := "" }

/-- The users table as the dashboard's query sees it: the username stored for
a user id, when that row exists. -/
structure Database where
  username_of : Nat → Option String

/-- src/routes/admin/dashboard.rs, get_username: one SELECT on the users
table, an error when no row comes back. -/
def get_username (user_id : Nat) (pool : Database) : Except String String :=
  match pool.username_of user_id with
  | some u => Except.ok u
  | none => Except.error "Failed to perform a query to retrieve a username"

/-- The observable effects of one admin handler call: the user ids queried on
the users table, and the response produced. -/
structure HandlerRun where
  queried : List Nat
  response : HttpResponse
  deriving DecidableEq, Repr

/-- src/routes/admin/dashboard.rs: the dashboard page body (the source's
raw-string indentation is elided; the interpolated username is spliced where
the format string puts it). -/
def dashboard_html (username : String) : String :=
  "<!DOCTYPE html><html lang=\"en\"><head><title>Admin Dashboard</title>" ++
  "<meta charset=\"UTF-8\">" ++
  "<meta http-equiv=\"content-type\" content=\"text/html; charset=utf-8\">" ++
  "<meta name=\"viewport\" content=\"width=device-width, initial-scale=1\">" ++
  "</head><body><p>Welcome " ++ username ++ "!</p><p>Available actions:</p>" ++
  "<ol><li><a href=\"/admin/password\">Change password</a></li>" ++
  "<li><a href=\"/admin/newsletters\">Publish a newsletter</a></li>" ++
  "<li><form name=\"logoutForm\" action=\"/admin/logout\" method=\"POST\">" ++
  "<input type=\"submit\" value=\"Logout\"></form></li></ol></body></html>"

/-- src/routes/admin/dashboard.rs, admin_dashboard. The session is the result
of TypedSession::get_user_id (modelled from the spec, the session_state module
not being among the staged sources): a stored user id, none, or a session
store error. A session error or a query error becomes a 500 via e500 and the
`?` operator; an anonymous session returns early with see_other "/login". -/
def admin_dashboard (session : Except String (Option Nat)) (pool : Database) :
    HandlerRun :=
  match session with
  | Except.error e => { queried := [], response := e500 e }
  | Except.ok none => { queried := [], response := see_other "/login" }
  | Except.ok (some user_id) =>
    match get_username user_id pool with
    | Except.error e => { queried := [user_id], response := e500 e }
    | Except.ok username =>
      { queried := [user_id],
        response := { status := 200,
                      headers := [("Content-Type", "text/html; charset=utf-8")],
                      body := dashboard_html username } }

/-- src/routes/admin/password/get.rs: the flash-message block, one
paragraph-wrapped line per incoming message. -/
def flash_html (flash_messages : List String) : String :=
  String.join (flash_messages.map (fun m => "<p><i>" ++ m ++ "</i></p>\n"))

/-- src/routes/admin/password/get.rs: the change-password page body (raw-string
indentation elided), with the flash-message block spliced in. -/
def change_password_html (msg_html : String) : String :=
  "<html lang=\"en\"><head>" ++
  "<meta http-equiv=\"content-type\" content=\"text/html; charset=utf-8\">" ++
  "<title>Change Password</title></head><body>" ++ msg_html ++
  "<form action=\"/admin/password\" method=\"post\">" ++
  "<label for=\"current_password\">Current password</label>" ++
  "<input name=\"current_password\" type=\"password\" placeholder=\"Enter current password\"><br>" ++
  "<label for=\"new_password\">New password</label>" ++
  "<input name=\"new_password\" type=\"password\" placeholder=\"Enter new password\"><br>" ++
  "<label for=\"new_password_check\">Confirm new password</label>" ++
  "<input name=\"new_password_check\" type=\"password\" placeholder=\"Type the new password again\"><br>" ++
  "<button type=\"submit\">Change password</button></form>" ++
  "<p><a href=\"/admin/dashboard\">&lt;- Back</a></p></body></html>"

/-- src/routes/admin/password/get.rs, change_password_form. The handler takes
no database pool; its only inputs are the session and the incoming flash
messages, and an anonymous session returns early with see_other "/login"
before the page is built. -/
def change_password_form (session : Except String (Option Nat))
    (flash_messages : List String) : HandlerRun :=
  match session with
  | Except.error e => { queried := [], response := e500 e }
  | Except.ok none => { queried := [], response := see_other "/login" }
  | Except.ok (some _) =>
    { queried := [],
      response := { status := 200,
                    headers := [("Content-Type", "text/html; charset=utf-8")],
                    body := change_password_html (flash_html flash_messages) } }

end ZeroToProd

namespace ZeroToProd

/-- The validation condition of SubscriberName::parse, as a Bool, is false
exactly when the three spec-side constraints hold. -/
theorem parse_condition_false_iff (gc : String → Nat) (s : String) :
    ((str_trim s).isEmpty || decide (gc s > 256)
      || s.data.any (fun g => forbidden_chars.contains g)) = false ↔
      (str_trim s ≠ "" ∧ gc s ≤ 256 ∧ ∀ c ∈ s.data, c ∉ forbidden_chars) := by
  simp [List.contains, List.elem_eq_mem, Nat.not_lt, Bool.eq_false_iff,
    String.isEmpty_iff, and_assoc]

/-- C2: SubscriberName construction accepts a string s exactly when s is
non-empty after trimming whitespace, the grapheme-cluster count of s is at
most 256, and no character of s is one of the forbidden characters
/ ( ) " < > \ 0x7b 0x7d. Stated for every grapheme-cluster counting
function, since the source delegates that count to an external crate. -/
theorem subscriber_name_parse_accepts_iff (gc : String → Nat) (s : String) :
    (∃ n, SubscriberName.parse gc s = RustOutcome.ok n) ↔
      (str_trim s ≠ "" ∧ gc s ≤ 256 ∧ ∀ c ∈ s.data, c ∉ forbidden_chars) := by
  unfold SubscriberName.parse
  rcases hb : ((str_trim s).isEmpty || decide (gc s > 256)
      || s.data.any (fun g => forbidden_chars.contains g)) with _ | _
  · simp only [hb, Bool.false_eq_true, if_false]
    exact ⟨fun _ => (parse_condition_false_iff gc s).mp hb, fun _ => ⟨⟨s⟩, rfl⟩⟩
  · simp only [hb, if_true]
    rw [← parse_condition_false_iff gc s, hb]
    constructor
    · rintro ⟨n, hn⟩
      cases hn
    · intro h
      cases h

/-- C1 counterexample: the claim says invalid input is rejected with a typed,
recoverable error returned to the caller, never a process abort; but on the
empty string (invalid: empty after trimming) SubscriberName::parse aborts the
process with a panic, and returns no value at all. -/
theorem subscriber_name_parse_panics_on_empty :
    SubscriberName.parse String.length "" =
      RustOutcome.panicked " is not a valid subscriber name" ∧
    ∀ n, SubscriberName.parse String.length "" ≠ RustOutcome.ok n := by
  refine ⟨by decide, ?_⟩
  intro n h
  cases h

/-- C1 amended: constructing a SubscriberName from invalid input is rejected
by an unrecoverable process abort (panic) carrying the source's message, not
by a typed error value; no SubscriberName is ever constructed from invalid
input, so invalid input is never stored. -/
theorem subscriber_name_parse_invalid_aborts (gc : String → Nat) (s : String)
    (h : str_trim s = "" ∨ gc s > 256 ∨ ∃ c ∈ s.data, c ∈ forbidden_chars) :
    SubscriberName.parse gc s =
      RustOutcome.panicked (s ++ " is not a valid subscriber name") ∧
    ∀ n, SubscriberName.parse gc s ≠ RustOutcome.ok n := by
  rcases hb : ((str_trim s).isEmpty || decide (gc s > 256)
      || s.data.any (fun g => forbidden_chars.contains g)) with _ | _
  · exfalso
    obtain ⟨h1, h2, h3⟩ := (parse_condition_false_iff gc s).mp hb
    rcases h with h | h | h
    · exact h1 h
    · omega
    · obtain ⟨c, hc, hmem⟩ := h
      exact h3 c hc hmem
  · constructor
    · unfold SubscriberName.parse
      simp only [hb, if_true]
    · intro n hcontra
      unfold SubscriberName.parse at hcontra
      simp only [hb, if_true] at hcontra
      cases hcontra

/-- C1 amended, witness at the concrete invalid input "a/b" (it contains the
forbidden character /): parse aborts and never returns a value. -/
theorem subscriber_name_parse_invalid_aborts_witness :
    SubscriberName.parse String.length "a/b" =
      RustOutcome.panicked "a/b is not a valid subscriber name" ∧
    ∀ n, SubscriberName.parse String.length "a/b" ≠ RustOutcome.ok n :=
  subscriber_name_parse_invalid_aborts String.length "a/b"
    (Or.inr (Or.inr ⟨'/', by decide, by decide⟩))

/-- C8: every string accepted by SubscriberName::parse is stored unchanged —
the value observable through inner_ref is the input itself, byte for byte;
trimming decides emptiness only and never touches the stored value. -/
theorem subscriber_name_inner_ref_preserves_input (gc : String → Nat)
    (s : String) (n : SubscriberName)
    (h : SubscriberName.parse gc s = RustOutcome.ok n) :
    n.inner_ref = s := by
  rcases hb : ((str_trim s).isEmpty || decide (gc s > 256)
      || s.data.any (fun g => forbidden_chars.contains g)) with _ | _
  · unfold SubscriberName.parse at h
    simp only [hb, Bool.false_eq_true, if_false, RustOutcome.ok.injEq] at h
    rw [← h]
    rfl
  · unfold SubscriberName.parse at h
    simp only [hb, if_true] at h
    cases h

/-- C8 witness at the concrete input " Le Guin " (valid, with leading and
trailing whitespace): the stored value keeps the whitespace. -/
theorem subscriber_name_inner_ref_preserves_input_witness :
    SubscriberName.inner_ref ⟨" Le Guin "⟩ = " Le Guin " :=
  subscriber_name_inner_ref_preserves_input String.length " Le Guin "
    ⟨" Le Guin "⟩ (by decide)

/-- When the configured base URL parses, send_email hands exactly the one
built request to the HTTP client and maps its exchange through
error_for_status. -/
theorem send_email_valid (c : EmailClient) (recipient : SubscriberEmail)
    (subject html_content text_content : String)
    (transport : HttpRequest → HttpExchange) (b : Url)
    (hb : Url.parse c.base_url = some b) :
    c.send_email recipient subject html_content text_content transport =
      { issued :=
          [send_request c recipient subject html_content text_content
            { b with path := "/email" }],
        outcome := RustOutcome.ok (exchange_result (transport
          (send_request c recipient subject html_content text_content
            { b with path := "/email" }))) } := by
  unfold EmailClient.send_email
  rw [hb]
  rfl

/-- When the configured base URL does not parse, send_email aborts at the
first unwrap, before any request is issued. -/
theorem send_email_invalid (c : EmailClient) (recipient : SubscriberEmail)
    (subject html_content text_content : String)
    (transport : HttpRequest → HttpExchange)
    (hb : Url.parse c.base_url = none) :
    c.send_email recipient subject html_content text_content transport =
      { issued := [],
        outcome := RustOutcome.panicked "called `Result::unwrap()` on an `Err` value" } := by
  unfold EmailClient.send_email
  rw [hb]

/-- C3 counterexample: the claim says the authorization token travels in a
header named X-Authorization-Token; on a concrete send, the one issued
request carries the token in a header named X-Postmark-Server-Token, and no
header named X-Authorization-Token at all. -/
theorem send_email_no_x_authorization_token_header :
    ∃ req, (exClient.send_email (SubscriberEmail.mk "r@example.com")
        "s" "h" "t" (fun _ => HttpExchange.response 200)).issued = [req] ∧
      req.headers = [("X-Postmark-Server-Token", "token-123")] ∧
      ∀ v, ("X-Authorization-Token", v) ∉ req.headers := by
  refine ⟨_, rfl, rfl, ?_⟩
  intro v hv
  simp only [send_request, List.mem_singleton, Prod.mk.injEq] at hv
  exact absurd hv.1 (by decide)

/-- C3 amended: every email send issues exactly one HTTP POST to the joined
/email endpoint of the provider, carrying the authorization token in a
request header named X-Postmark-Server-Token (not X-Authorization-Token). -/
theorem send_email_posts_with_postmark_token_header (c : EmailClient)
    (recipient : SubscriberEmail) (subject html_content text_content : String)
    (transport : HttpRequest → HttpExchange) (b : Url)
    (hb : Url.parse c.base_url = some b) :
    ∃ req, (c.send_email recipient subject html_content text_content
        transport).issued = [req] ∧
      req.method = "POST" ∧ req.url.path = "/email" ∧
      req.headers =
        [("X-Postmark-Server-Token", c.authorization_token.expose_secret)] ∧
      ∀ v, ("X-Authorization-Token", v) ∉ req.headers := by
  rw [send_email_valid c recipient subject html_content text_content transport b hb]
  refine ⟨_, rfl, rfl, rfl, rfl, ?_⟩
  intro v hv
  simp only [send_request, List.mem_singleton, Prod.mk.injEq] at hv
  exact absurd hv.1 (by decide)

/-- C3 amended, witness at a concrete client and a 200 response. -/
theorem send_email_posts_with_postmark_token_header_witness :
    ∃ req, (exClient.send_email (SubscriberEmail.mk "r@example.com")
        "subject" "html" "text" (fun _ => HttpExchange.response 200)).issued = [req] ∧
      req.method = "POST" ∧ req.url.path = "/email" ∧
      req.headers = [("X-Postmark-Server-Token", "token-123")] ∧
      ∀ v, ("X-Authorization-Token", v) ∉ req.headers :=
  send_email_posts_with_postmark_token_header exClient
    (SubscriberEmail.mk "r@example.com") "subject" "html" "text"
    (fun _ => HttpExchange.response 200)
    ⟨"http", "base-url.com", ""⟩ (by decide)

/-- The composed send-and-classify pipeline matches the amended contract on a
response of any status. -/
theorem classify_response_expected (st : Nat) :
    classify_send (exchange_result (HttpExchange.response st)) =
      expected_classification (HttpExchange.response st) := by
  simp only [exchange_result, classify_send, expected_classification,
    is_client_error, is_server_error]
  split_ifs <;> simp_all

/-- C4 amended: for every transport exchange the send result is one of the
three classified outcomes, with network errors and 5xx responses transient
and 4xx responses permanent; but a response whose status lies outside
400..599 — the 2xx successes and also non-success statuses such as 1xx and
3xx — is a reqwest-level success and is classified Success, not transient. -/
theorem send_email_classification (c : EmailClient)
    (recipient : SubscriberEmail) (subject html_content text_content : String)
    (ex : HttpExchange) (b : Url) (hb : Url.parse c.base_url = some b) :
    ∃ res, (c.send_email recipient subject html_content text_content
        (fun _ => ex)).outcome = RustOutcome.ok res ∧
      classify_send res = expected_classification ex := by
  rw [send_email_valid c recipient subject html_content text_content
    (fun _ => ex) b hb]
  refine ⟨_, rfl, ?_⟩
  cases ex with
  | network_error => rfl
  | response st => exact classify_response_expected st

/-- C4 amended, witness at a concrete client and a 500 response, classified
transient. -/
theorem send_email_classification_witness :
    ∃ res, (exClient.send_email (SubscriberEmail.mk "r@example.com")
        "s" "h" "t" (fun _ => HttpExchange.response 500)).outcome =
        RustOutcome.ok res ∧
      classify_send res = TransportOutcome.TransientFailure :=
  send_email_classification exClient (SubscriberEmail.mk "r@example.com")
    "s" "h" "t" (HttpExchange.response 500)
    ⟨"http", "base-url.com", ""⟩ (by decide)

/-- C4 counterexample: a 304 response is not a success status (it is not in
200..299), yet the send succeeds at the reqwest level and the classification
is Success — not TransientFailure as the claim requires for every non-success
outcome outside the network/5xx/4xx cases. -/
theorem send_email_304_classified_success :
    (∃ res, (exClient.send_email (SubscriberEmail.mk "r@example.com")
        "s" "h" "t" (fun _ => HttpExchange.response 304)).outcome =
        RustOutcome.ok res ∧
      classify_send res = TransportOutcome.Success) ∧
    ¬ (200 ≤ 304 ∧ 304 ≤ 299) ∧
    TransportOutcome.Success ≠ TransportOutcome.TransientFailure := by
  exact ⟨⟨Except.ok (), rfl, rfl⟩, by omega, by decide⟩

/-- C5: the JSON body of every send request holds exactly the five PascalCase
fields From, To, Subject, HtmlBody, TextBody, in order, populated from the
configured sender, the recipient, the subject, the HTML content and the text
content. -/
theorem send_email_body_fields (c : EmailClient) (recipient : SubscriberEmail)
    (subject html_content text_content : String)
    (transport : HttpRequest → HttpExchange) (b : Url)
    (hb : Url.parse c.base_url = some b) :
    ∃ req, (c.send_email recipient subject html_content text_content
        transport).issued = [req] ∧
      req.body = [("From", c.sender.as_ref), ("To", recipient.as_ref),
        ("Subject", subject), ("HtmlBody", html_content),
        ("TextBody", text_content)] := by
  rw [send_email_valid c recipient subject html_content text_content transport b hb]
  exact ⟨_, rfl, rfl⟩

/-- C5 witness at a concrete client: the body fields carry the concrete
sender, recipient, subject and contents. -/
theorem send_email_body_fields_witness :
    ∃ req, (exClient.send_email (SubscriberEmail.mk "r@example.com")
        "subject" "html" "text" (fun _ => HttpExchange.response 200)).issued = [req] ∧
      req.body = [("From", "sender@example.com"), ("To", "r@example.com"),
        ("Subject", "subject"), ("HtmlBody", "html"), ("TextBody", "text")] :=
  send_email_body_fields exClient (SubscriberEmail.mk "r@example.com")
    "subject" "html" "text" (fun _ => HttpExchange.response 200)
    ⟨"http", "base-url.com", ""⟩ (by decide)

/-- C6: the authorization token lives in the opaque Secret wrapper whose inner
value only expose_secret returns, and the derived Debug formatting of the
client renders the token as a fixed redacted placeholder: two clients that
differ only in their token produce identical Debug output. -/
theorem email_client_debug_redacts_token (u : String) (e : SubscriberEmail)
    (t₁ t₂ : String) :
    (EmailClient.new u e (Secret.mk t₁)).debug_fmt =
      (EmailClient.new u e (Secret.mk t₂)).debug_fmt ∧
    (Secret.mk t₁).expose_secret = t₁ :=
  ⟨rfl, rfl⟩

/-- C7: a single send_email invocation with a parseable base URL hands exactly
one request to the HTTP client, whatever the transport answers — a failing
exchange produces an error Result for that one request, never a second
attempt. -/
theorem send_email_single_request (c : EmailClient)
    (recipient : SubscriberEmail) (subject html_content text_content : String)
    (transport : HttpRequest → HttpExchange) (b : Url)
    (hb : Url.parse c.base_url = some b) :
    (c.send_email recipient subject html_content text_content
        transport).issued.length = 1 ∧
    ∃ req, (c.send_email recipient subject html_content text_content
        transport).outcome =
      RustOutcome.ok (exchange_result (transport req)) ∧
      (c.send_email recipient subject html_content text_content
        transport).issued = [req] := by
  rw [send_email_valid c recipient subject html_content text_content transport b hb]
  exact ⟨rfl, _, rfl, rfl⟩

/-- C7 witness at a concrete client and a network failure: one request issued,
the error returned, no retry. -/
theorem send_email_single_request_witness :
    (exClient.send_email (SubscriberEmail.mk "r@example.com")
        "s" "h" "t" (fun _ => HttpExchange.network_error)).issued.length = 1 ∧
    ∃ req, (exClient.send_email (SubscriberEmail.mk "r@example.com")
        "s" "h" "t" (fun _ => HttpExchange.network_error)).outcome =
      RustOutcome.ok (Except.error ReqwestError.network_error) ∧
      (exClient.send_email (SubscriberEmail.mk "r@example.com")
        "s" "h" "t" (fun _ => HttpExchange.network_error)).issued = [req] :=
  send_email_single_request exClient (SubscriberEmail.mk "r@example.com")
    "s" "h" "t" (fun _ => HttpExchange.network_error)
    ⟨"http", "base-url.com", ""⟩ (by decide)

/-- C9: when the configured base URL does not parse as an absolute URL, every
send_email call aborts the process at the unwrap before issuing any request,
returning no error value; when it parses as b, the one issued request's URL
is b with its whole path replaced by the root-level /email. -/
theorem send_email_url_handling (c : EmailClient) (recipient : SubscriberEmail)
    (subject html_content text_content : String)
    (transport : HttpRequest → HttpExchange) :
    (Url.parse c.base_url = none →
      c.send_email recipient subject html_content text_content transport =
        { issued := [],
          outcome := RustOutcome.panicked "called `Result::unwrap()` on an `Err` value" }) ∧
    (∀ b, Url.parse c.base_url = some b →
      ∃ req, (c.send_email recipient subject html_content text_content
          transport).issued = [req] ∧
        req.url = { scheme := b.scheme, authority := b.authority, path := "/email" }) := by
  constructor
  · intro hb
    exact send_email_invalid c recipient subject html_content text_content transport hb
  · intro b hb
    rw [send_email_valid c recipient subject html_content text_content transport b hb]
    exact ⟨_, rfl, rfl⟩

/-- C9 witness: a client with base URL "not a url" aborts with nothing issued;
a client with base URL "http://base-url.com" issues one request whose URL is
http://base-url.com/email. -/
theorem send_email_url_handling_witness :
    (exBadClient.send_email (SubscriberEmail.mk "r@example.com")
        "s" "h" "t" (fun _ => HttpExchange.response 200) =
      { issued := [],
        outcome := RustOutcome.panicked "called `Result::unwrap()` on an `Err` value" }) ∧
    ∃ req, (exClient.send_email (SubscriberEmail.mk "r@example.com")
        "s" "h" "t" (fun _ => HttpExchange.response 200)).issued = [req] ∧
      req.url = { scheme := "http", authority := "base-url.com", path := "/email" } :=
  ⟨(send_email_url_handling exBadClient (SubscriberEmail.mk "r@example.com")
      "s" "h" "t" (fun _ => HttpExchange.response 200)).1 (by decide),
   (send_email_url_handling exClient (SubscriberEmail.mk "r@example.com")
      "s" "h" "t" (fun _ => HttpExchange.response 200)).2
    ⟨"http", "base-url.com", ""⟩ (by decide)⟩

/-- C10: on a session carrying no user id, the admin dashboard handler and the
change-password form handler both return a See Other (303) redirect to /login
with an empty body, query no user row, and render no page. -/
theorem admin_handlers_redirect_anonymous (pool : Database)
    (flash_messages : List String) :
    admin_dashboard (Except.ok none) pool =
      { queried := [], response := see_other "/login" } ∧
    change_password_form (Except.ok none) flash_messages =
      { queried := [], response := see_other "/login" } ∧
    (see_other "/login").status = 303 ∧
    (see_other "/login").headers = [("Location", "/login")] ∧
    (see_other "/login").body = "" :=
  ⟨rfl, rfl, rfl, rfl, rfl⟩

end ZeroToProd
